import Mathlib

/-! # ia-iot-assert: traffic light with proximity override, and the LED chase

Shallow embedding of `iot/atividade4/main.c` (traffic-light sequencer and the
ultrasonic monitor that suspends it) and of `iot/atividade3/main.c` (the
eight-LED chase).

Modelling conventions.

* The three LED lines are a record of levels; `gpio_set_level` writes one line.
* The FreeRTOS scheduler is reduced to what the program uses of it: whether the
  task behind `handle_tarefa_semaforo` is suspended, together with the ordered
  log of `vTaskSuspend` / `vTaskResume` calls issued on it.  The handle is the
  sequencer task created in `app_main`, so the runs start once both tasks exist.
* One iteration of either task loop is one atomic step of the model.
* `printf` and `vTaskDelay` leave the modelled state untouched and are omitted.
* A measured distance is an exact rational number of metres.  Every finite
  `float` is such a number and `1.0` is exactly representable, so the C
  comparisons `<= 1.0` and `> 1.0` agree with the rational ones.  The driver
  computes the distance as a quotient of an echo time by a nonzero constant, so
  no NaN reaches the comparisons.
-/

namespace Atividade4

/-- The enumeration `cores_semaforo_t`, in the order of the source. -/
inductive cores_semaforo_t where
  | ESTADO_VERMELHO
  | ESTADO_AMARELO
  | ESTADO_VERDE
  deriving DecidableEq

open cores_semaforo_t

/-- The three output pins `PINO_LED_VERMELHO`, `PINO_LED_AMARELO`, `PINO_LED_VERDE`. -/
inductive Pino where
  | PINO_LED_VERMELHO
  | PINO_LED_AMARELO
  | PINO_LED_VERDE
  deriving DecidableEq

open Pino

/-- Levels currently driven on the three output lines. -/
structure Gpio where
  vermelho : Nat
  amarelo : Nat
  verde : Nat
  deriving DecidableEq

/-- Write `nivel` on the line `pino`; the other two lines keep their level. -/
def gpio_set_level (pino : Pino) (nivel : Nat) (g : Gpio) : Gpio :=
  match pino with
  | PINO_LED_VERMELHO => { g with vermelho := nivel }
  | PINO_LED_AMARELO => { g with amarelo := nivel }
  | PINO_LED_VERDE => { g with verde := nivel }

/-- Scheduler calls issued on `handle_tarefa_semaforo`. -/
inductive Chamada where
  | vTaskSuspend
  | vTaskResume
  deriving DecidableEq

/-- The variables of the program: the global `estado_atual`, the output lines,
the scheduler status of the sequencer task with the log of calls made on it, and
the monitor's local `modo_alerta_ativo`. -/
structure Sistema where
  estado_atual : cores_semaforo_t
  gpio : Gpio
  semaforo_suspenso : Bool
  chamadas : List Chamada
  modo_alerta_ativo : Bool
  deriving DecidableEq

/-- Suspend the sequencer task: it stops being scheduled, the call is logged. -/
def vTaskSuspend (s : Sistema) : Sistema :=
  { s with semaforo_suspenso := true, chamadas := s.chamadas ++ [Chamada.vTaskSuspend] }

/-- Resume the sequencer task: it is scheduled again, the call is logged. -/
def vTaskResume (s : Sistema) : Sistema :=
  { s with semaforo_suspenso := false, chamadas := s.chamadas ++ [Chamada.vTaskResume] }

/-- The function `alternar_estado_semaforo`: from `*estado_ptr` and the lines,
the returned wait in seconds, the value left in `*estado_ptr`, and the lines. -/
def alternar_estado_semaforo (estado : cores_semaforo_t) (g : Gpio) :
    Int × cores_semaforo_t × Gpio :=
  match estado with
  | ESTADO_VERMELHO =>
      let g := gpio_set_level PINO_LED_VERMELHO 1 g
      let g := gpio_set_level PINO_LED_AMARELO 0 g
      let g := gpio_set_level PINO_LED_VERDE 0 g
      (5, ESTADO_VERDE, g)
  | ESTADO_VERDE =>
      let g := gpio_set_level PINO_LED_VERMELHO 0 g
      let g := gpio_set_level PINO_LED_AMARELO 0 g
      let g := gpio_set_level PINO_LED_VERDE 1 g
      (10, ESTADO_AMARELO, g)
  | ESTADO_AMARELO =>
      let g := gpio_set_level PINO_LED_VERMELHO 0 g
      let g := gpio_set_level PINO_LED_AMARELO 1 g
      let g := gpio_set_level PINO_LED_VERDE 0 g
      (1, ESTADO_VERMELHO, g)

/-- One iteration of the loop of `tarefa_controle_semaforo`: the step is applied
to the global `estado_atual`; the result pairs the new variables with
`tempo_espera`. -/
def tarefa_controle_semaforo (s : Sistema) : Sistema × Int :=
  let r := alternar_estado_semaforo s.estado_atual s.gpio
  ({ s with estado_atual := r.2.1, gpio := r.2.2 }, r.1)

/-- The success code `ESP_OK` of `esp_err_t`. -/
def ESP_OK : Int := 0

/-- The driver's error code `ESP_ERR_ULTRASONIC_PING` (its `ultrasonic.h`). -/
def ESP_ERR_ULTRASONIC_PING : Int := 0x200

/-- The driver's error code `ESP_ERR_ULTRASONIC_PING_TIMEOUT`. -/
def ESP_ERR_ULTRASONIC_PING_TIMEOUT : Int := 0x201

/-- The driver's error code `ESP_ERR_ULTRASONIC_ECHO_TIMEOUT`. -/
def ESP_ERR_ULTRASONIC_ECHO_TIMEOUT : Int := 0x202

/-- What `ultrasonic_measure` hands back: the `esp_err_t` result and the value
left in `distancia_medida` (metres). -/
structure Medicao where
  resultado : Int
  distancia : ℚ
  deriving DecidableEq

/-- The line `processar_erro_sensor` prints after the error number. -/
inductive Diagnostico where
  | ping_estado_invalido
  | ping_timeout
  | echo_timeout
  | nome_do_erro (codigo : Int)
  deriving DecidableEq

/-- The function `processar_erro_sensor`: it classifies the code and prints one
line; it touches no variable of the program, so its whole effect is that line. -/
def processar_erro_sensor (codigo_erro : Int) : Diagnostico :=
  if codigo_erro = ESP_ERR_ULTRASONIC_PING then Diagnostico.ping_estado_invalido
  else if codigo_erro = ESP_ERR_ULTRASONIC_PING_TIMEOUT then Diagnostico.ping_timeout
  else if codigo_erro = ESP_ERR_ULTRASONIC_ECHO_TIMEOUT then Diagnostico.echo_timeout
  else Diagnostico.nome_do_erro codigo_erro

/-- One iteration of the loop of `tarefa_monitoramento_sensor`, the measurement
being given.  The printed lines are not part of the variables. -/
def tarefa_monitoramento_sensor (m : Medicao) (s : Sistema) : Sistema :=
  if m.resultado = ESP_OK then
    if m.distancia ≤ 1 ∧ ¬ s.modo_alerta_ativo = true then
      let g := gpio_set_level PINO_LED_VERMELHO 1 s.gpio
      let g := gpio_set_level PINO_LED_AMARELO 0 g
      let g := gpio_set_level PINO_LED_VERDE 0 g
      let s := vTaskSuspend { s with gpio := g }
      { s with estado_atual := ESTADO_VERMELHO, modo_alerta_ativo := true }
    else if m.distancia > 1 ∧ s.modo_alerta_ativo = true then
      let s := vTaskResume s
      { s with modo_alerta_ativo := false }
    else s
  else
    let _linha := processar_erro_sensor m.resultado
    s

/-- A successful measurement of `d` metres. -/
def medida (d : ℚ) : Medicao := ⟨ESP_OK, d⟩

/-- The variables when both tasks start: `estado_atual = ESTADO_VERMELHO`,
`modo_alerta_ativo = false`, the sequencer task running, no scheduler call yet;
`g` is whatever the lines carry after `configurar_leds`. -/
def estado_inicial (g : Gpio) : Sistema :=
  { estado_atual := ESTADO_VERMELHO, gpio := g, semaforo_suspenso := false,
    chamadas := [], modo_alerta_ativo := false }

/-- Monitor iterations run one after the other on a list of measurements. -/
def monitorar (ms : List Medicao) (s : Sistema) : Sistema :=
  ms.foldl (fun acc m => tarefa_monitoramento_sensor m acc) s

/-- The variables after each monitor iteration of a run, in order. -/
def historico : List Medicao → Sistema → List Sistema
  | [], _ => []
  | m :: ms, s =>
      tarefa_monitoramento_sensor m s :: historico ms (tarefa_monitoramento_sensor m s)

/-- The fixed output configuration of the alert: red on, yellow and green off. -/
def saida_alerta : Gpio := ⟨1, 0, 0⟩

/-- One scheduling event: a monitor iteration with its measurement, or the
sequencer task getting the processor for one iteration of its loop. -/
inductive Evento where
  | monitor (m : Medicao)
  | semaforo
  deriving DecidableEq

/-- Effect of one event.  A suspended sequencer task is not scheduled, so its
event leaves the variables as they are. -/
def passo (s : Sistema) (e : Evento) : Sistema :=
  match e with
  | Evento.monitor m => tarefa_monitoramento_sensor m s
  | Evento.semaforo =>
      if s.semaforo_suspenso = true then s else (tarefa_controle_semaforo s).1

/-- Any interleaving of monitor iterations and sequencer iterations. -/
def executar (es : List Evento) (s : Sistema) : Sistema :=
  es.foldl passo s

end Atividade4

namespace Atividade3

/-- The table `leds` of `update_leds`: GPIO numbers of `LED_1` .. `LED_8`. -/
def leds : List Nat := [2, 15, 13, 14, 27, 25, 33, 26]

/-- The constant `LED_COUNT`. -/
def LED_COUNT : Nat := 8

/-- The function `update_leds`: the level written to each of the eight pins,
in loop order, as pairs (GPIO number, level). -/
def update_leds (value : Nat) : List (Nat × Nat) :=
  (List.range LED_COUNT).map (fun i => (leds.getD i 0, (value >>> i) &&& 1))

/-- The update of `current_value` in the loop of `app_main`; the result of the
shift is stored back into a `uint8_t`, hence the reduction modulo 256. -/
def atualizar (direction : Int) (current_value : Nat) : Nat :=
  if direction = 0 then
    let v := (current_value <<< 1) % 256
    if v = 0 then 0b00000001 else v
  else
    let v := (current_value >>> 1) % 256
    if v = 0 then 0b10000000 else v

/-- Value of `current_value` at the top of the loop after the given directions
were read, one per iteration, starting from `0b00000001`. -/
def current_value_apos (ds : List Int) : Nat :=
  ds.foldl (fun v d => atualizar d v) 0b00000001

end Atividade3

/-! ## Traffic light: the sequencer step -/

namespace Atividade4

open cores_semaforo_t Pino

/-- C1: from every state the step leaves the fixed-order successor in the state
variable and returns the wait of the state it was called in: red gives green and
5, green gives yellow and 10, yellow gives red and 1. -/
theorem alternar_estado_semaforo_sucessor_e_espera (g : Gpio) :
    ((alternar_estado_semaforo ESTADO_VERMELHO g).1 = 5 ∧
      (alternar_estado_semaforo ESTADO_VERMELHO g).2.1 = ESTADO_VERDE) ∧
    ((alternar_estado_semaforo ESTADO_VERDE g).1 = 10 ∧
      (alternar_estado_semaforo ESTADO_VERDE g).2.1 = ESTADO_AMARELO) ∧
    ((alternar_estado_semaforo ESTADO_AMARELO g).1 = 1 ∧
      (alternar_estado_semaforo ESTADO_AMARELO g).2.1 = ESTADO_VERMELHO) := by
  refine ⟨⟨rfl, rfl⟩, ⟨rfl, rfl⟩, ⟨rfl, rfl⟩⟩

/-- C2: after the step is called in state S, whatever the lines carried before,
the line of S is high and the other two are low, so exactly one line is high:
red for red, green for green, yellow for yellow. -/
theorem alternar_estado_semaforo_uma_saida_ativa (estado : cores_semaforo_t) (g : Gpio) :
    (alternar_estado_semaforo estado g).2.2.vermelho
        = (if estado = ESTADO_VERMELHO then 1 else 0) ∧
    (alternar_estado_semaforo estado g).2.2.verde
        = (if estado = ESTADO_VERDE then 1 else 0) ∧
    (alternar_estado_semaforo estado g).2.2.amarelo
        = (if estado = ESTADO_AMARELO then 1 else 0) ∧
    (alternar_estado_semaforo estado g).2.2.vermelho
        + (alternar_estado_semaforo estado g).2.2.amarelo
        + (alternar_estado_semaforo estado g).2.2.verde = 1 := by
  cases estado <;> simp [alternar_estado_semaforo, gpio_set_level]

end Atividade4

/-! ## Traffic light: one monitor iteration -/

namespace Atividade4

open cores_semaforo_t Pino

lemma ciclo_entra_alerta (d : ℚ) (s : Sistema) (hd : d ≤ 1)
    (hf : s.modo_alerta_ativo = false) :
    tarefa_monitoramento_sensor (medida d) s =
      { estado_atual := ESTADO_VERMELHO, gpio := saida_alerta, semaforo_suspenso := true,
        chamadas := s.chamadas ++ [Chamada.vTaskSuspend], modo_alerta_ativo := true } := by
  simp [tarefa_monitoramento_sensor, medida, hd, hf, vTaskSuspend, gpio_set_level, saida_alerta]

lemma ciclo_sai_alerta (d : ℚ) (s : Sistema) (hd : 1 < d)
    (hf : s.modo_alerta_ativo = true) :
    tarefa_monitoramento_sensor (medida d) s =
      { s with semaforo_suspenso := false, chamadas := s.chamadas ++ [Chamada.vTaskResume],
               modo_alerta_ativo := false } := by
  simp [tarefa_monitoramento_sensor, medida, hd, hf, vTaskResume, not_le.mpr hd]

lemma ciclo_mantem_alerta (d : ℚ) (s : Sistema) (hd : d ≤ 1)
    (hf : s.modo_alerta_ativo = true) :
    tarefa_monitoramento_sensor (medida d) s = s := by
  simp [tarefa_monitoramento_sensor, medida, hf, not_lt.mpr hd]

lemma ciclo_mantem_normal (d : ℚ) (s : Sistema) (hd : 1 < d)
    (hf : s.modo_alerta_ativo = false) :
    tarefa_monitoramento_sensor (medida d) s = s := by
  simp [tarefa_monitoramento_sensor, medida, hf, not_le.mpr hd]

lemma ciclo_erro (m : Medicao) (s : Sistema) (h : m.resultado ≠ ESP_OK) :
    tarefa_monitoramento_sensor m s = s := by
  simp [tarefa_monitoramento_sensor, h]

/-- C3: one monitor iteration with a successful measurement `d`.  At `d ≤ 1` with
the flag clear it drives red high, yellow and green low, suspends the sequencer
(one `vTaskSuspend`) and sets the flag; at `d > 1` with the flag set it resumes
the sequencer (one `vTaskResume`) and clears the flag; in the two other cases it
makes no scheduler call and changes neither the flag nor the lines. -/
theorem monitor_limiar_quatro_casos (d : ℚ) (s : Sistema) :
    (d ≤ 1 → s.modo_alerta_ativo = false →
      (tarefa_monitoramento_sensor (medida d) s).gpio = ⟨1, 0, 0⟩ ∧
      (tarefa_monitoramento_sensor (medida d) s).semaforo_suspenso = true ∧
      (tarefa_monitoramento_sensor (medida d) s).chamadas
        = s.chamadas ++ [Chamada.vTaskSuspend] ∧
      (tarefa_monitoramento_sensor (medida d) s).modo_alerta_ativo = true) ∧
    (d > 1 → s.modo_alerta_ativo = true →
      (tarefa_monitoramento_sensor (medida d) s).semaforo_suspenso = false ∧
      (tarefa_monitoramento_sensor (medida d) s).chamadas
        = s.chamadas ++ [Chamada.vTaskResume] ∧
      (tarefa_monitoramento_sensor (medida d) s).modo_alerta_ativo = false) ∧
    ((d ≤ 1 ∧ s.modo_alerta_ativo = true) ∨ (d > 1 ∧ s.modo_alerta_ativo = false) →
      (tarefa_monitoramento_sensor (medida d) s).chamadas = s.chamadas ∧
      (tarefa_monitoramento_sensor (medida d) s).semaforo_suspenso = s.semaforo_suspenso ∧
      (tarefa_monitoramento_sensor (medida d) s).modo_alerta_ativo = s.modo_alerta_ativo ∧
      (tarefa_monitoramento_sensor (medida d) s).gpio = s.gpio) := by
  refine ⟨fun hd hf => ?_, fun hd hf => ?_, fun h => ?_⟩
  · rw [ciclo_entra_alerta d s hd hf]
    exact ⟨rfl, rfl, rfl, rfl⟩
  · rw [ciclo_sai_alerta d s hd hf]
    exact ⟨rfl, rfl, rfl⟩
  · rcases h with ⟨hd, hf⟩ | ⟨hd, hf⟩
    · rw [ciclo_mantem_alerta d s hd hf]
      exact ⟨rfl, rfl, rfl, rfl⟩
    · rw [ciclo_mantem_normal d s hd hf]
      exact ⟨rfl, rfl, rfl, rfl⟩

/-- Witness of C3: entry from a green light at 0.5 m, exit at 2 m, and the two
idle cases (0.5 m while in alert, 2 m while normal). -/
theorem monitor_limiar_quatro_casos_witness :
    ((tarefa_monitoramento_sensor (medida (1/2))
        ⟨ESTADO_AMARELO, ⟨0, 0, 1⟩, false, [], false⟩).gpio = ⟨1, 0, 0⟩ ∧
      (tarefa_monitoramento_sensor (medida (1/2))
        ⟨ESTADO_AMARELO, ⟨0, 0, 1⟩, false, [], false⟩).semaforo_suspenso = true ∧
      (tarefa_monitoramento_sensor (medida (1/2))
        ⟨ESTADO_AMARELO, ⟨0, 0, 1⟩, false, [], false⟩).chamadas = [] ++ [Chamada.vTaskSuspend] ∧
      (tarefa_monitoramento_sensor (medida (1/2))
        ⟨ESTADO_AMARELO, ⟨0, 0, 1⟩, false, [], false⟩).modo_alerta_ativo = true) ∧
    ((tarefa_monitoramento_sensor (medida 2)
        ⟨ESTADO_VERMELHO, ⟨1, 0, 0⟩, true, [Chamada.vTaskSuspend], true⟩).semaforo_suspenso
          = false ∧
      (tarefa_monitoramento_sensor (medida 2)
        ⟨ESTADO_VERMELHO, ⟨1, 0, 0⟩, true, [Chamada.vTaskSuspend], true⟩).chamadas
          = [Chamada.vTaskSuspend] ++ [Chamada.vTaskResume] ∧
      (tarefa_monitoramento_sensor (medida 2)
        ⟨ESTADO_VERMELHO, ⟨1, 0, 0⟩, true, [Chamada.vTaskSuspend], true⟩).modo_alerta_ativo
          = false) ∧
    (tarefa_monitoramento_sensor (medida (1/2))
        ⟨ESTADO_VERMELHO, ⟨1, 0, 0⟩, true, [Chamada.vTaskSuspend], true⟩).gpio = ⟨1, 0, 0⟩ ∧
    (tarefa_monitoramento_sensor (medida 2)
        ⟨ESTADO_AMARELO, ⟨0, 0, 1⟩, false, [], false⟩).gpio = ⟨0, 0, 1⟩ :=
  ⟨(monitor_limiar_quatro_casos (1/2) ⟨ESTADO_AMARELO, ⟨0, 0, 1⟩, false, [], false⟩).1
      (by norm_num) rfl,
   (monitor_limiar_quatro_casos 2
      ⟨ESTADO_VERMELHO, ⟨1, 0, 0⟩, true, [Chamada.vTaskSuspend], true⟩).2.1 (by norm_num) rfl,
   ((monitor_limiar_quatro_casos (1/2)
      ⟨ESTADO_VERMELHO, ⟨1, 0, 0⟩, true, [Chamada.vTaskSuspend], true⟩).2.2
        (Or.inl ⟨by norm_num, rfl⟩)).2.2.2,
   ((monitor_limiar_quatro_casos 2 ⟨ESTADO_AMARELO, ⟨0, 0, 1⟩, false, [], false⟩).2.2
        (Or.inr ⟨by norm_num, rfl⟩)).2.2.2⟩

/-- C4 (evaluation of the code at the boundary): from the initial variables, a
successful measurement of exactly 1.0 m sets the flag and suspends the
sequencer with one `vTaskSuspend`. -/
theorem monitor_em_um_metro_entra_em_alerta :
    (tarefa_monitoramento_sensor (medida 1) (estado_inicial ⟨0, 0, 0⟩)).modo_alerta_ativo
        = true ∧
    (tarefa_monitoramento_sensor (medida 1) (estado_inicial ⟨0, 0, 0⟩)).semaforo_suspenso
        = true ∧
    (tarefa_monitoramento_sensor (medida 1) (estado_inicial ⟨0, 0, 0⟩)).chamadas
        = [Chamada.vTaskSuspend] := by
  decide

/-- C5 (counterexample): with the light green, the flag clear and a successful
measurement of 0.5 m, the monitor iteration leaves `estado_atual` at
`ESTADO_VERMELHO`, not at the `ESTADO_VERDE` it found. -/
theorem monitor_altera_estado_atual :
    (tarefa_monitoramento_sensor (medida (1/2))
        ⟨ESTADO_VERDE, ⟨1, 0, 0⟩, false, [], false⟩).estado_atual = ESTADO_VERMELHO ∧
    (tarefa_monitoramento_sensor (medida (1/2))
        ⟨ESTADO_VERDE, ⟨1, 0, 0⟩, false, [], false⟩).estado_atual
      ≠ (⟨ESTADO_VERDE, ⟨1, 0, 0⟩, false, [], false⟩ : Sistema).estado_atual := by
  rw [ciclo_entra_alerta (1/2) _ (by norm_num) rfl]
  exact ⟨rfl, by decide⟩

/-- C5 (amended): a monitor iteration writes `estado_atual` only when it enters
the alert (successful measurement `d ≤ 1` with the flag clear), and then it
writes `ESTADO_VERMELHO`; in every other iteration `estado_atual` is unchanged.
The sequencer iteration writes the fixed-order successor: green after red,
yellow after green, red after yellow. -/
theorem monitor_estado_atual_so_na_entrada (m : Medicao) (s : Sistema) :
    (tarefa_monitoramento_sensor m s).estado_atual =
      (if m.resultado = ESP_OK ∧ m.distancia ≤ 1 ∧ s.modo_alerta_ativo = false
        then ESTADO_VERMELHO else s.estado_atual) ∧
    (tarefa_controle_semaforo s).1.estado_atual =
      (match s.estado_atual with
        | ESTADO_VERMELHO => ESTADO_VERDE
        | ESTADO_VERDE => ESTADO_AMARELO
        | ESTADO_AMARELO => ESTADO_VERMELHO) := by
  constructor
  · by_cases hr : m.resultado = ESP_OK
    · by_cases hd : m.distancia ≤ 1
      · cases hf : s.modo_alerta_ativo <;>
          simp [tarefa_monitoramento_sensor, hr, hd, hf, vTaskSuspend, not_lt.mpr hd]
      · cases hf : s.modo_alerta_ativo <;>
          simp [tarefa_monitoramento_sensor, hr, hd, hf, vTaskResume, not_le.mp hd]
    · simp [tarefa_monitoramento_sensor, hr]
  · cases hs : s.estado_atual <;>
      simp [tarefa_controle_semaforo, alternar_estado_semaforo, hs]

/-- C8: a measurement whose result is not `ESP_OK` leaves every variable as it
was (flag, suspended status, call log, `estado_atual`, the three lines); the
iteration is a total function, so the loop goes on to its next cycle. -/
theorem monitor_erro_nao_altera (m : Medicao) (s : Sistema) (h : m.resultado ≠ ESP_OK) :
    tarefa_monitoramento_sensor m s = s ∧
    (tarefa_monitoramento_sensor m s).modo_alerta_ativo = s.modo_alerta_ativo ∧
    (tarefa_monitoramento_sensor m s).semaforo_suspenso = s.semaforo_suspenso ∧
    (tarefa_monitoramento_sensor m s).estado_atual = s.estado_atual ∧
    (tarefa_monitoramento_sensor m s).gpio = s.gpio := by
  rw [ciclo_erro m s h]
  exact ⟨rfl, rfl, rfl, rfl, rfl⟩

/-- Witness of C8: an echo timeout at a stale distance of 0.5 m, green light on. -/
theorem monitor_erro_nao_altera_witness :
    (⟨ESP_ERR_ULTRASONIC_ECHO_TIMEOUT, 1/2⟩ : Medicao).resultado ≠ ESP_OK ∧
    tarefa_monitoramento_sensor ⟨ESP_ERR_ULTRASONIC_ECHO_TIMEOUT, 1/2⟩
        ⟨ESTADO_AMARELO, ⟨0, 0, 1⟩, false, [], false⟩
      = ⟨ESTADO_AMARELO, ⟨0, 0, 1⟩, false, [], false⟩ :=
  ⟨by decide,
   (monitor_erro_nao_altera ⟨ESP_ERR_ULTRASONIC_ECHO_TIMEOUT, 1/2⟩
      ⟨ESTADO_AMARELO, ⟨0, 0, 1⟩, false, [], false⟩ (by decide)).1⟩

end Atividade4

/-! ## Traffic light: runs of the monitor and of both tasks -/

namespace Atividade4

open cores_semaforo_t Pino

/-- What holds of the variables along every run: the sequencer is suspended
exactly when the flag is set, and while it is suspended the lines carry the
alert configuration. -/
def coerente (s : Sistema) : Prop :=
  s.semaforo_suspenso = s.modo_alerta_ativo ∧
    (s.semaforo_suspenso = true → s.gpio = saida_alerta)

lemma coerente_inicial (g : Gpio) : coerente (estado_inicial g) := by
  simp [coerente, estado_inicial]

lemma coerente_monitor (m : Medicao) (s : Sistema) (h : coerente s) :
    coerente (tarefa_monitoramento_sensor m s) := by
  obtain ⟨h1, h2⟩ := h
  by_cases hr : m.resultado = ESP_OK
  · have hm : m = medida m.distancia := by
      cases m
      simp_all [medida]
    rw [hm]
    by_cases hd : m.distancia ≤ 1
    · cases hf : s.modo_alerta_ativo
      · rw [ciclo_entra_alerta _ s hd hf]
        simp [coerente]
      · rw [ciclo_mantem_alerta _ s hd hf]
        exact ⟨h1, h2⟩
    · cases hf : s.modo_alerta_ativo
      · rw [ciclo_mantem_normal _ s (not_le.mp hd) hf]
        exact ⟨h1, h2⟩
      · rw [ciclo_sai_alerta _ s (not_le.mp hd) hf]
        simp [coerente]
  · rw [ciclo_erro m s hr]
    exact ⟨h1, h2⟩

lemma coerente_passo (e : Evento) (s : Sistema) (h : coerente s) : coerente (passo s e) := by
  cases e with
  | monitor m => exact coerente_monitor m s h
  | semaforo =>
      cases hs : s.semaforo_suspenso
      · have hf : s.modo_alerta_ativo = false := by rw [← h.1, hs]
        simp [passo, hs, coerente, tarefa_controle_semaforo, hf]
      · simpa [passo, hs] using h

lemma coerente_executar (es : List Evento) (s : Sistema) (h : coerente s) :
    coerente (executar es s) := by
  induction es generalizing s with
  | nil => simpa [executar] using h
  | cons e es ih => exact ih (passo s e) (coerente_passo e s h)

lemma monitorar_eq_executar (ms : List Medicao) (s : Sistema) :
    monitorar ms s = executar (ms.map Evento.monitor) s := by
  induction ms generalizing s with
  | nil => rfl
  | cons m ms ih => simpa [monitorar, executar, passo] using ih (tarefa_monitoramento_sensor m s)

lemma monitorar_snoc (ms : List Medicao) (m : Medicao) (s : Sistema) :
    monitorar (ms ++ [m]) s = tarefa_monitoramento_sensor m (monitorar ms s) := by
  simp [monitorar, List.foldl_append]

lemma ciclo_segue_limiar (d : ℚ) (s : Sistema)
    (h : s.semaforo_suspenso = s.modo_alerta_ativo) :
    (tarefa_monitoramento_sensor (medida d) s).modo_alerta_ativo = decide (d ≤ 1) ∧
    (tarefa_monitoramento_sensor (medida d) s).semaforo_suspenso = decide (d ≤ 1) := by
  by_cases hd : d ≤ 1
  · cases hf : s.modo_alerta_ativo
    · rw [ciclo_entra_alerta _ s hd hf]
      simp [hd]
    · rw [ciclo_mantem_alerta _ s hd hf]
      simp [hd, hf, h]
  · cases hf : s.modo_alerta_ativo
    · rw [ciclo_mantem_normal _ s (not_le.mp hd) hf]
      simp [hd, hf, h]
    · rw [ciclo_sai_alerta _ s (not_le.mp hd) hf]
      simp [hd]

/-- C6: with the flag already set, a successful measurement `d ≤ 1` leaves all
the variables as they were (no further `vTaskSuspend` in the log, same flag,
same suspended status, same lines); and from any variables, a run of successful
measurements all `≤ 1` ends where its first iteration ended. -/
theorem pausa_idempotente :
    (∀ (s : Sistema) (d : ℚ), s.modo_alerta_ativo = true → d ≤ 1 →
      tarefa_monitoramento_sensor (medida d) s = s) ∧
    (∀ (s : Sistema) (d : ℚ) (ds : List ℚ), d ≤ 1 → (∀ x ∈ ds, x ≤ 1) →
      monitorar ((d :: ds).map medida) s = tarefa_monitoramento_sensor (medida d) s) := by
  refine ⟨fun s d hf hd => ciclo_mantem_alerta d s hd hf, ?_⟩
  intro s d ds hd hds
  have hflag : (tarefa_monitoramento_sensor (medida d) s).modo_alerta_ativo = true := by
    cases hf : s.modo_alerta_ativo
    · rw [ciclo_entra_alerta d s hd hf]
    · rw [ciclo_mantem_alerta d s hd hf, hf]
  have key : ∀ (l : List ℚ) (t : Sistema), t.modo_alerta_ativo = true → (∀ x ∈ l, x ≤ 1) →
      monitorar (l.map medida) t = t := by
    intro l
    induction l with
    | nil => intro t _ _; rfl
    | cons x l ih =>
        intro t ht hl
        have hx : x ≤ 1 := hl x (List.mem_cons_self x l)
        have hstep : tarefa_monitoramento_sensor (medida x) t = t :=
          ciclo_mantem_alerta x t hx ht
        have hrest := ih t ht (fun y hy => hl y (List.mem_cons_of_mem x hy))
        simpa [monitorar, hstep] using hrest
  have := key ds (tarefa_monitoramento_sensor (medida d) s) hflag hds
  simpa [monitorar] using this

/-- Witness of C6: in alert, 0.5 m changes nothing; and from the initial
variables the readings 0.5, 1, 0.25 end where the single reading 0.5 ends. -/
theorem pausa_idempotente_witness :
    tarefa_monitoramento_sensor (medida (1/2))
        ⟨ESTADO_VERMELHO, ⟨1, 0, 0⟩, true, [Chamada.vTaskSuspend], true⟩
      = ⟨ESTADO_VERMELHO, ⟨1, 0, 0⟩, true, [Chamada.vTaskSuspend], true⟩ ∧
    monitorar (((1/2 : ℚ) :: [1, 1/4]).map medida) (estado_inicial ⟨0, 0, 1⟩)
      = tarefa_monitoramento_sensor (medida (1/2)) (estado_inicial ⟨0, 0, 1⟩) :=
  ⟨pausa_idempotente.1 ⟨ESTADO_VERMELHO, ⟨1, 0, 0⟩, true, [Chamada.vTaskSuspend], true⟩ (1/2)
      rfl (by norm_num),
   pausa_idempotente.2 (estado_inicial ⟨0, 0, 1⟩) (1/2) [1, 1/4] (by norm_num)
      (by intro x hx; simp at hx; rcases hx with rfl | rfl <;> norm_num)⟩

/-- C7: started from the initial variables, after any earlier measurements
(successful or not) a successful measurement `d` leaves the flag and the
suspended status both equal to `d ≤ 1`; and the readings 2.0, 0.5, 0.5, 2.0
give the flags normal, alert, alert, normal, with the call log empty, then one
suspend from the second reading on, then that suspend followed by one resume
after the fourth. -/
theorem monitor_segue_limiar (g : Gpio) :
    (∀ (ms : List Medicao) (d : ℚ),
      (monitorar (ms ++ [medida d]) (estado_inicial g)).modo_alerta_ativo = decide (d ≤ 1) ∧
      (monitorar (ms ++ [medida d]) (estado_inicial g)).semaforo_suspenso = decide (d ≤ 1)) ∧
    (historico [medida 2, medida (1/2), medida (1/2), medida 2] (estado_inicial g)).map
        (fun s => (s.modo_alerta_ativo, s.semaforo_suspenso, s.chamadas))
      = [(false, false, []),
         (true, true, [Chamada.vTaskSuspend]),
         (true, true, [Chamada.vTaskSuspend]),
         (false, false, [Chamada.vTaskSuspend, Chamada.vTaskResume])] := by
  constructor
  · intro ms d
    rw [monitorar_snoc]
    apply ciclo_segue_limiar
    rw [monitorar_eq_executar]
    exact (coerente_executar _ _ (coerente_inicial g)).1
  · norm_num [historico, tarefa_monitoramento_sensor, medida, estado_inicial, vTaskSuspend,
      vTaskResume, gpio_set_level]

/-- C9: after any interleaving of monitor iterations (any measurement results)
and sequencer iterations (none while suspended) from the initial variables,
if the sequencer is suspended then red is high and yellow and green are low. -/
theorem suspenso_implica_saida_alerta (es : List Evento) (g : Gpio)
    (h : (executar es (estado_inicial g)).semaforo_suspenso = true) :
    (executar es (estado_inicial g)).gpio = ⟨1, 0, 0⟩ :=
  (coerente_executar es _ (coerente_inicial g)).2 h

/-- Witness of C9: two sequencer iterations bring the green line up, then a
reading of 0.5 m pauses the sequencer, whose next event finds it suspended. -/
theorem suspenso_implica_saida_alerta_witness :
    (executar [Evento.semaforo, Evento.semaforo, Evento.monitor (medida (1/2)), Evento.semaforo]
        (estado_inicial ⟨0, 0, 0⟩)).semaforo_suspenso = true ∧
    (executar [Evento.semaforo, Evento.semaforo] (estado_inicial ⟨0, 0, 0⟩)).gpio = ⟨0, 0, 1⟩ ∧
    (executar [Evento.semaforo, Evento.semaforo, Evento.monitor (medida (1/2)), Evento.semaforo]
        (estado_inicial ⟨0, 0, 0⟩)).gpio = ⟨1, 0, 0⟩ :=
  have hs : (executar
      [Evento.semaforo, Evento.semaforo, Evento.monitor (medida (1/2)), Evento.semaforo]
      (estado_inicial ⟨0, 0, 0⟩)).semaforo_suspenso = true := by
    norm_num [executar, passo, tarefa_controle_semaforo, alternar_estado_semaforo,
      tarefa_monitoramento_sensor, medida, estado_inicial, vTaskSuspend, gpio_set_level]
  ⟨hs, by decide,
   suspenso_implica_saida_alerta
    [Evento.semaforo, Evento.semaforo, Evento.monitor (medida (1/2)), Evento.semaforo] ⟨0, 0, 0⟩
    hs⟩

end Atividade4

/-! ## LED chase -/

namespace Atividade3

lemma atualizar_um_bit (d : Int) (p : Nat) (hp : p < 8) :
    ∃ q, q < 8 ∧ atualizar d (2 ^ p) = 2 ^ q := by
  by_cases hd : d = 0
  · refine ⟨(p + 1) % 8, Nat.mod_lt _ (by norm_num), ?_⟩
    subst hd
    interval_cases p <;> decide
  · refine ⟨(p + 7) % 8, Nat.mod_lt _ (by norm_num), ?_⟩
    interval_cases p <;> simp [atualizar, hd]

lemma current_value_um_bit (ds : List Int) (v : Nat) (h : ∃ p, p < 8 ∧ v = 2 ^ p) :
    ∃ p, p < 8 ∧ ds.foldl (fun v d => atualizar d v) v = 2 ^ p := by
  induction ds generalizing v with
  | nil => simpa using h
  | cons d ds ih =>
      obtain ⟨p, hp, rfl⟩ := h
      exact ih _ (atualizar_um_bit d p hp)

lemma current_value_apos_snoc (ds : List Int) (d : Int) :
    current_value_apos (ds ++ [d]) = atualizar d (current_value_apos ds) := by
  simp [current_value_apos, List.foldl_append]

lemma atualizar_posicao (d : Int) (p : Nat) (hp : p < 8) :
    atualizar d (2 ^ p) = 2 ^ (if d = 0 then (p + 1) % 8 else (p + 7) % 8) := by
  by_cases hd : d = 0
  · subst hd
    interval_cases p <;> decide
  · interval_cases p <;> simp [atualizar, hd]

/-- C10: the loop starts at `0b00000001` and each iteration replaces
`current_value` by the update applied to the direction it read.  Whatever
directions were read, `current_value` at the top of the loop is a single bit
`2 ^ p` with `p < 8`; `update_leds` then makes eight writes, to the eight
distinct pins 2, 15, 13, 14, 27, 25, 33, 26 in that order, with level 1 on the
pin of position `p` and level 0 on the seven others; and the next iteration
leaves the single bit at position `p + 1` modulo 8 when it reads direction 0 and
at position `p - 1` modulo 8 when it reads direction 1 (or any other non-zero
value).  At the ends, `0x80 << 1` stored in eight bits is 0 and the value
restarts at `0x01`, and `0x01 >> 1` is 0 and the value restarts at `0x80`. -/
theorem led_chase_um_led_aceso :
    current_value_apos [] = 0b00000001 ∧
    (∀ (ds : List Int) (d : Int),
      current_value_apos (ds ++ [d]) = atualizar d (current_value_apos ds)) ∧
    (∀ ds : List Int, ∃ p, p < 8 ∧ current_value_apos ds = 2 ^ p ∧
      update_leds (current_value_apos ds)
        = (List.range 8).map
            (fun i => ([2, 15, 13, 14, 27, 25, 33, 26].getD i 0, if i = p then 1 else 0)) ∧
      ((update_leds (current_value_apos ds)).map Prod.fst).Nodup ∧
      (update_leds (current_value_apos ds)).filter (fun x => decide (x.2 ≠ 0))
        = [([2, 15, 13, 14, 27, 25, 33, 26].getD p 0, 1)] ∧
      current_value_apos (ds ++ [0]) = 2 ^ ((p + 1) % 8) ∧
      current_value_apos (ds ++ [1]) = 2 ^ ((p + 7) % 8) ∧
      (∀ d : Int, d ≠ 0 → current_value_apos (ds ++ [d]) = 2 ^ ((p + 7) % 8))) ∧
    (∀ p, p < 8 → atualizar 0 (2 ^ p) = 2 ^ ((p + 1) % 8) ∧
      atualizar 1 (2 ^ p) = 2 ^ ((p + 7) % 8)) ∧
    ((0x80 <<< 1) % 256 = 0 ∧ atualizar 0 0x80 = 0x01 ∧
      (0x01 >>> 1) % 256 = 0 ∧ atualizar 1 0x01 = 0x80) := by
  refine ⟨rfl, current_value_apos_snoc, fun ds => ?_, fun p hp => ?_, by decide⟩
  · obtain ⟨p, hp, hv⟩ := current_value_um_bit ds 0b00000001 ⟨0, by norm_num, rfl⟩
    have hv2 : current_value_apos ds = 2 ^ p := hv
    have h0 := atualizar_posicao 0 p hp
    have h1 : ∀ d : Int, d ≠ 0 → atualizar d (2 ^ p) = 2 ^ ((p + 7) % 8) := by
      intro d hd
      simpa [hd] using atualizar_posicao d p hp
    refine ⟨p, hp, hv2, ?_, ?_, ?_, ?_, ?_, ?_⟩
    · rw [hv2]
      interval_cases p <;> decide
    · rw [hv2]
      interval_cases p <;> decide
    · rw [hv2]
      interval_cases p <;> decide
    · rw [current_value_apos_snoc, hv2]
      simpa using h0
    · rw [current_value_apos_snoc, hv2]
      exact h1 1 (by decide)
    · intro d hd
      rw [current_value_apos_snoc, hv2]
      exact h1 d hd
  · interval_cases p <;> decide

/-- Witness of C10: from the last position, bit 7, direction 0 wraps to bit 0
and direction 1 steps back to bit 6. -/
theorem led_chase_um_led_aceso_witness :
    7 < 8 ∧ atualizar 0 (2 ^ 7) = 2 ^ ((7 + 1) % 8) ∧ atualizar 1 (2 ^ 7) = 2 ^ ((7 + 7) % 8) :=
  ⟨by decide, led_chase_um_led_aceso.2.2.2.1 7 (by decide)⟩

end Atividade3
